import Mathlib

/-!
Verification development for the station95schedule chatbot core:
the poller lock, the message queue, the conversation router, the
workflow store, the state serializer and the shift-coverage
workflow nodes, shallowly embedded from the Python sources in `src/`.
-/

set_option maxHeartbeats 1000000

namespace Station95

/-! ## Workflow data model (src/src/models.py, src/src/conversation_state_manager.py) -/

/-- Workflow status values (`workflows.status` column). -/
inductive WStatus
  | NEW
  | WAITING_FOR_INPUT
  | READY
  | EXECUTING
  | COMPLETED
  | EXPIRED
  deriving DecidableEq, Repr

/-- Active statuses, as used by the queries in
`ConversationStateManager.get_active_workflow` /
`get_active_workflows_for_squad` / `expire_old_workflows`:
`["NEW", "WAITING_FOR_INPUT", "READY", "EXECUTING"]`. -/
def WStatus.isActive : WStatus → Bool
  | .NEW => true
  | .WAITING_FOR_INPUT => true
  | .READY => true
  | .EXECUTING => true
  | _ => false

/-- One row of the `workflows` table.  `interaction_count` stands for
`state_data["interaction_count"]` (defaulting to 0), the only part of
the opaque state payload the router's escalation check reads. -/
structure Workflow where
  id : Nat
  group_id : String
  squad_id : Option Nat
  status : WStatus
  interaction_count : Nat
  expires_at : Int
  deriving DecidableEq, Repr

/-! ## Poller lock (src/src/poller_lock.py) -/

/-- Contents of the poller lock file, as seen by `PollerLock.acquire`:
either a readable record whose `started_at` parses, or a record that
raises `json.JSONDecodeError` / `KeyError` / `ValueError` when read. -/
inductive LockFile
  | valid (started_at : Int)
  | corrupt
  deriving DecidableEq, Repr

/-- Admin escalation events raised by the lock manager
(`notify_admin("poller_timeout", ...)`). -/
inductive LockEvent
  | pollerTimeout
  deriving DecidableEq, Repr

/-- Result of one `PollerLock.acquire` call: the returned boolean, the
lock-file state afterwards, and the admin notifications emitted. -/
structure AcquireResult where
  acquired : Bool
  lock : Option LockFile
  events : List LockEvent
  deriving DecidableEq, Repr

/-- `PollerLock.acquire` (src/src/poller_lock.py lines 28-80).
`now` and `started_at` are in seconds; the staleness threshold is
`timedelta(minutes=settings.poller_timeout_minutes)`.
A missing lock file, a stale record (`age > timeout`, which first
notifies the admin) and a corrupt record all lead to `_create_lock()`
and `True`; a fresh record returns `False`. -/
def PollerLock.acquire (now timeoutMinutes : Int) (lock : Option LockFile) :
    AcquireResult :=
  match lock with
  | some (LockFile.valid started_at) =>
      let age := now - started_at
      let timeout := timeoutMinutes * 60
      if age > timeout then
        { acquired := true
          lock := some (LockFile.valid now)
          events := [LockEvent.pollerTimeout] }
      else
        { acquired := false
          lock := some (LockFile.valid started_at)
          events := [] }
  | some LockFile.corrupt =>
      { acquired := true
        lock := some (LockFile.valid now)
        events := [] }
  | none =>
      { acquired := true
        lock := some (LockFile.valid now)
        events := [] }

/-- A lock record that is present, well formed and within the staleness
threshold (`age ≤ timeout`): exactly the case in which `acquire`
yields. -/
def freshLock (now timeoutMinutes : Int) : Option LockFile → Bool
  | some (LockFile.valid started_at) =>
      decide (now - started_at ≤ timeoutMinutes * 60)
  | some LockFile.corrupt => false
  | none => false

/-- `PollerLock.release` (src/src/poller_lock.py lines 102-109): delete
the lock file if present; a failing `unlink` is caught and logged.
Returns the lock-file state afterwards and whether the call raised
(it never does). -/
def PollerLock.release (lock : Option LockFile) (unlinkFails : Bool) :
    Option LockFile × Bool :=
  match lock with
  | some l => if unlinkFails then (some l, false) else (none, false)
  | none => (none, false)

/-! ## Poll cycle lock scoping (src/src/groupme_poller.py, GroupMePoller.poll) -/

/-- How the body of `GroupMePoller.poll` (the `try:` block, lines
333-479) terminates once the lock is held: a normal run to the final
`return`, the early `return` taken when `_fetch_messages` raises
(lines 337-345), or an exception propagating out of the block.
Every other failure inside the block is caught per call site. -/
inductive PollBodyExit
  | normal
  | fetchErrorReturn
  | raised
  deriving DecidableEq, Repr

/-- Observable trace of one `GroupMePoller.poll` call, as far as the
lock is concerned. -/
structure PollTrace where
  lockAcquired : Bool
  releaseCalled : Bool
  raised : Bool
  lock : Option LockFile
  deriving DecidableEq, Repr

/-- `GroupMePoller.poll` (src/src/groupme_poller.py lines 302-483),
restricted to its lock handling: acquire; if that yields, return at
once without touching the lock again; otherwise run the body inside
`try:` and run `self.poller_lock.release()` in the `finally:` block on
every exit path, then propagate the body's exception if there was one.
`unlinkFails` is whether the `unlink` inside `release` fails. -/
def GroupMePoller.poll (now timeoutMinutes : Int) (lock : Option LockFile)
    (bodyExit : PollBodyExit) (unlinkFails : Bool) : PollTrace :=
  let a := PollerLock.acquire now timeoutMinutes lock
  if a.acquired then
    let rel := PollerLock.release a.lock unlinkFails
    { lockAcquired := true
      releaseCalled := true
      raised := (bodyExit = PollBodyExit.raised) || rel.2
      lock := rel.1 }
  else
    { lockAcquired := false
      releaseCalled := false
      raised := false
      lock := a.lock }

/-! ## Message queue (src/src/message_queue_manager.py) -/

/-- Queue entry status values (`message_queue.status` column). -/
inductive QStatus
  | PENDING
  | PROCESSING
  | DONE
  | FAILED
  | EXPIRED
  | SKIPPED
  deriving DecidableEq, Repr

/-- One row of the `message_queue` table.  The source also maintains
`updated_at` / `processed_at` wall-clock columns, which no claim
touches and which are omitted here. -/
structure QueueRow where
  message_id : String
  group_id : String
  user_id : String
  user_name : String
  message_text : String
  timestamp : Int
  status : QStatus
  retry_count : Nat
  error_message : Option String
  deriving DecidableEq, Repr

/-- Modelled from the spec: the `message_queue` table schema itself is
not under `src/` (only its callers are).  The spec requires insertion
to be "idempotent on message id ... duplicates are expected under poll
overlap and are silently absorbed", so the table carries a unique
constraint on `message_id`: inserting a duplicate key makes the
database raise instead of storing a second row. -/
def dbInsertUniqueMessageId (rows : List QueueRow) (row : QueueRow) :
    Except String (List QueueRow) :=
  if rows.any (fun r => r.message_id = row.message_id) then
    Except.error "duplicate key value violates unique constraint"
  else
    Except.ok (rows ++ [row])

/-- `MessageQueueManager.insert_message` (lines 27-72): insert a new
PENDING row (`retry_count` starts at the column default 0); any
exception from the insert is caught, logged, and absorbed by returning
`None` so that polling continues.  Returns the table afterwards and
the row handed back to the caller. -/
def MessageQueueManager.insert_message (rows : List QueueRow)
    (message_id group_id user_id user_name message_text : String)
    (timestamp : Int) : List QueueRow × Option QueueRow :=
  let row : QueueRow :=
    { message_id := message_id
      group_id := group_id
      user_id := user_id
      user_name := user_name
      message_text := message_text
      timestamp := timestamp
      status := QStatus.PENDING
      retry_count := 0
      error_message := none }
  match dbInsertUniqueMessageId rows row with
  | Except.ok rows2 => (rows2, some row)
  | Except.error _ => (rows, none)

/-- `MessageQueueManager.get_pending_messages` (lines 74-96): every row
whose status is PENDING or FAILED, ordered by ascending timestamp. -/
def MessageQueueManager.get_pending_messages (rows : List QueueRow) :
    List QueueRow :=
  (rows.filter (fun r =>
      r.status = QStatus.PENDING ∨ r.status = QStatus.FAILED)).mergeSort
    (fun a b => a.timestamp ≤ b.timestamp)

/-- `MessageQueueManager.update_status` (lines 98-141): set the status
of the row(s) with this `message_id`; a DONE transition also stamps
`processed_at` (omitted column); a FAILED transition also records the
error message and writes `retry_count := current + 1`, where `current`
is read back from the first matching row before the update. -/
def MessageQueueManager.update_status (rows : List QueueRow)
    (message_id : String) (status : QStatus)
    (error_message : Option String) : List QueueRow :=
  let current_retry :=
    ((rows.find? (fun r => r.message_id = message_id)).map
      (fun r => r.retry_count)).getD 0
  rows.map (fun r =>
    if r.message_id = message_id then
      if status = QStatus.FAILED then
        { r with
            status := status
            error_message := error_message
            retry_count := current_retry + 1 }
      else
        { r with status := status }
    else r)

/-- `MessageQueueManager.get_retry_count` (lines 196-207) via
`get_message_by_id`: the first matching row's `retry_count`, or 0 when
the row does not exist. -/
def MessageQueueManager.get_retry_count (rows : List QueueRow)
    (message_id : String) : Nat :=
  ((rows.find? (fun r => r.message_id = message_id)).map
    (fun r => r.retry_count)).getD 0

/-- Admin escalation notifications (`notify_admin(kind, context)`);
`ref` renders the message id or workflow id from the context. -/
structure AdminNote where
  kind : String
  ref : String
  deriving DecidableEq, Repr

/-- One iteration of the drain loop in `GroupMePoller.poll` (lines
414-461) for the queue entry `qid`: mark it PROCESSING, run
`coordinator.process_message` (`ok` says whether it succeeded), then
mark DONE on success, or mark FAILED with the error text and notify
the admin (`message_retry_exceeded`) when the retry count read back
after the increment has reached `settings.max_retry_attempts`. -/
def pollProcessOne (maxRetryAttempts : Nat) (ok : Bool) (errText : String)
    (rows : List QueueRow) (qid : String) : List QueueRow × List AdminNote :=
  let rows1 := MessageQueueManager.update_status rows qid QStatus.PROCESSING none
  if ok then
    (MessageQueueManager.update_status rows1 qid QStatus.DONE none, [])
  else
    let rows2 :=
      MessageQueueManager.update_status rows1 qid QStatus.FAILED (some errText)
    let retry := MessageQueueManager.get_retry_count rows2 qid
    if maxRetryAttempts ≤ retry then
      (rows2, [{ kind := "message_retry_exceeded", ref := qid }])
    else
      (rows2, [])

/-- Step 3 of `GroupMePoller.poll` (lines 407-461): drain every entry
`get_pending_messages` returns, in order, accumulating the admin
notifications.  `ok` and `errText` describe, per message id, whether
the coordinator succeeds and the error text it raises otherwise. -/
def pollDrain (maxRetryAttempts : Nat) (ok : String → Bool)
    (errText : String → String) (rows : List QueueRow) :
    List QueueRow × List AdminNote :=
  (MessageQueueManager.get_pending_messages rows).foldl
    (fun acc q =>
      let step := pollProcessOne maxRetryAttempts (ok q.message_id)
        (errText q.message_id) acc.1 q.message_id
      (step.1, acc.2 ++ step.2))
    (rows, [])

/-! ## State serializer (src/src/state_serializer.py) -/

/-- LangChain message objects as the workflow's working state holds
them (`HumanMessage` / `AIMessage` / `SystemMessage` / `ToolMessage`
with the attributes `_serialize_message` reads). -/
inductive LCMessage
  | human (content : String) (additional_kwargs : List (String × String))
  | ai (content : String) (additional_kwargs : List (String × String))
      (tool_calls : List String)
  | system (content : String) (additional_kwargs : List (String × String))
  | tool (content : String) (additional_kwargs : List (String × String))
      (tool_call_id : String)
  deriving DecidableEq, Repr

/-- Dictionary form of a message as `_serialize_message` stores it:
`type`, `content`, `additional_kwargs`, plus `tool_call_id` for tool
messages and `tool_calls` for AI messages. -/
structure MessageDict where
  type : String
  content : String
  additional_kwargs : List (String × String)
  tool_call_id : Option String
  tool_calls : Option (List String)
  deriving DecidableEq, Repr

/-- `_serialize_message` (lines 63-91) on a message object. -/
def serializeMessage : LCMessage → MessageDict
  | LCMessage.human c kw =>
      { type := "HumanMessage", content := c, additional_kwargs := kw
        tool_call_id := none, tool_calls := none }
  | LCMessage.ai c kw tc =>
      { type := "AIMessage", content := c, additional_kwargs := kw
        tool_call_id := none, tool_calls := some tc }
  | LCMessage.system c kw =>
      { type := "SystemMessage", content := c, additional_kwargs := kw
        tool_call_id := none, tool_calls := none }
  | LCMessage.tool c kw id =>
      { type := "ToolMessage", content := c, additional_kwargs := kw
        tool_call_id := some id, tool_calls := none }

/-- `_deserialize_message` (lines 94-141) on a dictionary: dispatch on
`type`, with `message_classes.get(msg_type, HumanMessage)` falling
back to a human message for unknown type names, `tool_call_id`
defaulting to `""` and `tool_calls` defaulting to `[]`. -/
def deserializeMessage (d : MessageDict) : LCMessage :=
  if d.type = "ToolMessage" then
    LCMessage.tool d.content d.additional_kwargs (d.tool_call_id.getD "")
  else if d.type = "AIMessage" then
    LCMessage.ai d.content d.additional_kwargs (d.tool_calls.getD [])
  else if d.type = "SystemMessage" then
    LCMessage.system d.content d.additional_kwargs
  else
    LCMessage.human d.content d.additional_kwargs

/-- An element of a `state_data["messages"]` list: either an in-memory
message object or an already-serialized dictionary (both occur in the
source, which is why `_serialize_message` / `_deserialize_message`
each start with an "already converted" check). -/
inductive MessageItem
  | obj (m : LCMessage)
  | dict (d : MessageDict)
  deriving DecidableEq, Repr

/-- `_serialize_message` including its leading
`isinstance(msg, dict)` pass-through. -/
def serializeMessageItem : MessageItem → MessageDict
  | MessageItem.obj m => serializeMessage m
  | MessageItem.dict d => d

/-- `_deserialize_message` including its leading
`isinstance(msg_dict, BaseMessage)` pass-through. -/
def deserializeMessageItem : MessageItem → LCMessage
  | MessageItem.obj m => m
  | MessageItem.dict d => deserializeMessage d

/-- A JSON-ish value stored under one key of the `state_data` payload.
Non-message values (strings, numbers, action-dict lists, warning
lists, null) are opaque to the serializer. -/
inductive StateVal
  | str (s : String)
  | num (n : Int)
  | strList (l : List String)
  | dictList (l : List (List (String × String)))
  | msgs (l : List MessageItem)
  | null
  deriving DecidableEq, Repr

/-- The per-key action of `serialize_state`: only a truthy (non-empty)
list under the key `messages` is converted. -/
def serializeStateEntry (kv : String × StateVal) : String × StateVal :=
  if kv.1 = "messages" then
    match kv.2 with
    | StateVal.msgs l =>
        if l.isEmpty then kv
        else (kv.1, StateVal.msgs (l.map (fun it =>
          MessageItem.dict (serializeMessageItem it))))
    | _ => kv
  else kv

/-- The per-key action of `deserialize_state`: only a truthy
(non-empty) list under the key `messages` is converted. -/
def deserializeStateEntry (kv : String × StateVal) : String × StateVal :=
  if kv.1 = "messages" then
    match kv.2 with
    | StateVal.msgs l =>
        if l.isEmpty then kv
        else (kv.1, StateVal.msgs (l.map (fun it =>
          MessageItem.obj (deserializeMessageItem it))))
    | _ => kv
  else kv

/-- `serialize_state` (lines 17-37): copy the payload and, when a
truthy (non-empty) `messages` entry is present, map
`_serialize_message` over it; every other key is untouched. -/
def serialize_state (st : List (String × StateVal)) :
    List (String × StateVal) :=
  st.map serializeStateEntry

/-- `deserialize_state` (lines 40-60): copy the payload and, when a
truthy (non-empty) `messages` entry is present, map
`_deserialize_message` over it; every other key is untouched. -/
def deserialize_state (st : List (String × StateVal)) :
    List (String × StateVal) :=
  st.map deserializeStateEntry

/-- States whose `messages` entries hold in-memory message objects:
the form every payload has at the point the engine serializes it. -/
def objMessagesOnly : StateVal → Bool
  | StateVal.msgs l =>
      l.all (fun it =>
        match it with
        | MessageItem.obj _ => true
        | MessageItem.dict _ => false)
  | _ => true

/-- Fixture for the retry-ceiling analysis: a queue entry that has
already failed twice (`retry_count = 2`) under the default
`max_retry_attempts = 3`. -/
def twiceFailedRow : QueueRow :=
  { message_id := "m1"
    group_id := "g"
    user_id := "u"
    user_name := "Ann"
    message_text := "hi"
    timestamp := 0
    status := QStatus.FAILED
    retry_count := 2
    error_message := some "boom" }

/-! ## Shift-coverage validation (src/src/workflows/shift_coverage.py) -/

/-- The fields of `ShiftWorkflowState` that `validate_parameters_node`,
`route_after_validation` and
`WorkflowManager._update_workflow_from_state` read or write.  The
message list, schedule snapshot, and sender context do not take part
in validation and are omitted. -/
structure ShiftWorkflowState where
  squad : Option Nat
  date : Option String
  shift_start : Option String
  shift_end : Option String
  action : Option String
  parsed_requests : List (List (String × String))
  validation_warnings : List String
  validation_passed : Bool
  execution_status : Option String
  current_step : String
  missing_parameters : List String
  clarification_question : Option String
  interaction_count : Nat
  deriving DecidableEq, Repr

/-- Python truthiness of an optional string
(`if not state.get(param)`): `None` and `""` are falsy. -/
def truthyStr : Option String → Bool
  | some s => !s.isEmpty
  | none => false

/-- Python truthiness of an optional int: `None` and `0` are falsy. -/
def truthyNat : Option Nat → Bool
  | some n => decide (n ≠ 0)
  | none => false

/-- `str.isdigit` on the ASCII strings these fields hold. -/
def isDigits (s : String) : Bool :=
  s.toList.all Char.isDigit

/-- The checks of `validate_parameters_node` (lines 384-438), in
source order, each paired with the warning it appends on failure:
the four required-presence checks, the squad whitelist
`[34, 35, 42, 43, 54]`, the 8-digit date shape and the two 4-digit
time shapes (the format checks are vacuous on falsy fields —
`if squad and squad not in ...` etc.). -/
def validationChecks (st : ShiftWorkflowState) : List (Bool × String) :=
  [ (truthyNat st.squad, "Missing required parameter: squad"),
    (truthyStr st.date, "Missing required parameter: date"),
    (truthyStr st.shift_start, "Missing required parameter: shift_start"),
    (truthyStr st.shift_end, "Missing required parameter: shift_end"),
    (!truthyNat st.squad || [34, 35, 42, 43, 54].contains (st.squad.getD 0),
      "Invalid squad number: " ++ toString (st.squad.getD 0)),
    (!truthyStr st.date ||
        (decide ((st.date.getD "").length = 8) && isDigits (st.date.getD "")),
      "Invalid date format: " ++ st.date.getD "" ++ " (expected YYYYMMDD)"),
    (!truthyStr st.shift_start ||
        (decide ((st.shift_start.getD "").length = 4)
          && isDigits (st.shift_start.getD "")),
      "Invalid shift_start format: " ++ st.shift_start.getD ""
        ++ " (expected HHMM)"),
    (!truthyStr st.shift_end ||
        (decide ((st.shift_end.getD "").length = 4)
          && isDigits (st.shift_end.getD "")),
      "Invalid shift_end format: " ++ st.shift_end.getD ""
        ++ " (expected HHMM)") ]

/-- One `warnings.append(...) / passed = False` step of
`validate_parameters_node`. -/
def vstep (acc : List String × Bool) (check : Bool) (warning : String) :
    List String × Bool :=
  if check then acc else (acc.1 ++ [warning], false)

/-- `validate_parameters_node` (lines 384-438): run the checks in
order, accumulating warnings and the passed flag from
`warnings = []` / `passed = True`; default a falsy `action` to
`"noCrew"`; set `current_step = "validate"`.  No extracted field is
cleared. -/
def validate_parameters_node (st : ShiftWorkflowState) : ShiftWorkflowState :=
  let wp := (validationChecks st).foldl
    (fun acc cw => vstep acc cw.1 cw.2) ([], true)
  { st with
      validation_warnings := wp.1
      validation_passed := wp.2
      action := if truthyStr st.action then st.action else some "noCrew"
      current_step := "validate" }

/-- `route_after_validation` (lines 578-592). -/
def route_after_validation (st : ShiftWorkflowState) : String :=
  if st.validation_passed then "execute" else "end"

/-- `WorkflowManager._update_workflow_from_state` (lines 254-299),
status determination: the new status written for the workflow, given
its previous status and the state the step returned. -/
def WorkflowManager.update_workflow_from_state (old : WStatus)
    (st : ShiftWorkflowState) : WStatus :=
  if st.current_step = "request_clarification" then WStatus.WAITING_FOR_INPUT
  else if st.current_step = "complete_no_action" then WStatus.COMPLETED
  else if st.current_step = "validate" && st.validation_passed then WStatus.READY
  else if st.current_step = "execute" then
    match st.execution_status with
    | some es => if es = "prepared" then WStatus.EXECUTING else WStatus.COMPLETED
    | none => WStatus.COMPLETED
  else old

/-- Restatement of the spec's validation rules (spec §4.2: required
fields present, squad from the fixed closed set, date 8-digit, times
4-digit 24-hour shape), for comparison with what the node computes. -/
def specValidationOk (st : ShiftWorkflowState) : Bool :=
  truthyNat st.squad && truthyStr st.date && truthyStr st.shift_start
    && truthyStr st.shift_end
    && [34, 35, 42, 43, 54].contains (st.squad.getD 0)
    && (decide ((st.date.getD "").length = 8) && isDigits (st.date.getD ""))
    && (decide ((st.shift_start.getD "").length = 4)
        && isDigits (st.shift_start.getD ""))
    && (decide ((st.shift_end.getD "").length = 4)
        && isDigits (st.shift_end.getD ""))

/-! ## Multi-action execution (src/src/workflow_manager.py,
WorkflowManager._handle_workflow_outputs, lines 339-431) -/

/-- A calendar command as prepared by `execute_command_node`. -/
structure CalendarCommand where
  action : String
  squad : Nat
  date : String
  shift_start : String
  shift_end : String
  deriving DecidableEq, Repr, Inhabited

/-- One entry of the `results` list `_handle_workflow_outputs`
accumulates: the command and whether
`calendar_client.send_command_with_retry` succeeded. -/
structure CommandResult where
  command : CalendarCommand
  success : Bool
  deriving DecidableEq, Repr

/-- The `summary` dict recorded on the execution result. -/
structure ExecSummary where
  total : Nat
  successful : Nat
  failed : Nat
  deriving DecidableEq, Repr

/-- The updated `execution_result` payload after the command loop. -/
structure ExecutionResult where
  status : String
  results : List CommandResult
  summary : ExecSummary
  deriving DecidableEq, Repr

/-- What `_handle_workflow_outputs` produces for a prepared command
list: the stored execution result, the chat messages sent, and the
final workflow status written. -/
structure ExecutionOutcome where
  execution_result : ExecutionResult
  chat_messages : List String
  final_status : WStatus
  deriving DecidableEq, Repr

/-- The `for idx, command_dict in enumerate(commands_list, 1)` loop:
run each command through the calendar client (`sendOk i` is whether
attempt number `i` succeeds) and record a per-command result. -/
def runCommands (sendOk : Nat → Bool) : Nat → List CalendarCommand →
    List CommandResult
  | _, [] => []
  | i, c :: rest =>
      { command := c, success := sendOk i } :: runCommands sendOk (i + 1) rest

/-- The single-command confirmation text (lines 399-405). -/
def singleConfirmationText (c : CalendarCommand) : String :=
  "✅ Updated schedule: " ++ c.action ++ " for Squad " ++ toString c.squad
    ++ " on " ++ c.date ++ " (" ++ c.shift_start ++ "-" ++ c.shift_end ++ ")"

/-- The multi-command confirmation text (lines 406-412). -/
def multiConfirmationText (successful failed : Nat) : String :=
  "✅ Updated schedule: " ++ toString successful ++ " action(s) completed"
    ++ (if 0 < failed then ", " ++ toString failed ++ " failed" else "")

/-- `_handle_workflow_outputs` (lines 339-431), execution part, for a
non-empty prepared `commands_list`: iterate the commands, count
successes and failures, store
`status = "success" if failed == 0 else "partial"` plus the per-command
results and the summary, mark the workflow COMPLETED, and send a
confirmation when anything succeeded plus an error notice when
anything failed. -/
def WorkflowManager.handle_workflow_outputs_exec (sendOk : Nat → Bool)
    (cmds : List CalendarCommand) : ExecutionOutcome :=
  let results := runCommands sendOk 1 cmds
  let successful := (results.filter (fun cr => cr.success)).length
  let failed := (results.filter (fun cr => !cr.success)).length
  let er : ExecutionResult :=
    { status := if failed = 0 then "success" else "partial"
      results := results
      summary := { total := cmds.length, successful := successful
                   failed := failed } }
  let confirmation :=
    if 0 < successful then
      [if successful = 1 && cmds.length = 1 then
        singleConfirmationText (cmds.headI)
       else multiConfirmationText successful failed]
    else []
  let errorNotice :=
    if 0 < failed then
      ["❌ " ++ toString failed ++ " command(s) failed to execute"]
    else []
  { execution_result := er
    chat_messages := confirmation ++ errorNotice
    final_status := WStatus.COMPLETED }

/-- The spec's three-way aggregate outcome
(all-succeeded / partial / all-failed). -/
inductive AggregateOutcome
  | allSucceeded
  | mixed
  | allFailed
  deriving DecidableEq, Repr

/-- The aggregate a non-empty per-action outcome list falls into. -/
def specAggregate (outcomes : List Bool) : AggregateOutcome :=
  if outcomes.all (fun b => b) then AggregateOutcome.allSucceeded
  else if outcomes.all (fun b => !b) then AggregateOutcome.allFailed
  else AggregateOutcome.mixed

/-- The aggregate a reader reconstructs from the recorded summary. -/
def reportedAggregate (s : ExecSummary) : AggregateOutcome :=
  if s.failed = 0 then AggregateOutcome.allSucceeded
  else if s.successful = 0 then AggregateOutcome.allFailed
  else AggregateOutcome.mixed

/-! ## Conversation router (src/src/conversation_router.py) -/

/-- Everything `ConversationRouter.route_message` consults: the roster
answers, the state-manager queries, the two external classifiers, the
configured interaction limit, and whether each fallible collaborator
call raises on this invocation.  (`notify_admin` never raises by
design.) -/
structure RouterEnv where
  authorized : Bool
  senderSquad : Option Nat
  squadWorkflows : List Workflow
  isRelated : Nat → Bool
  relatedConfidence : Nat → Nat
  interactionLimit : Nat
  sendMessageRaises : Bool
  updateStatusRaises : Bool
  resumeRaises : Bool
  activeWorkflow : Option Workflow
  intentShift : Bool
  intentConfidence : Nat
  startRaises : Bool
  newWorkflowId : Nat

/-- The dictionary `route_message` returns, together with the
side effects it performed: admin notifications, chat messages sent,
and workflow status writes.  (The internal effects of
`resume_workflow` / `start_workflow` belong to the engine and are not
tracked here.) -/
structure RouteResult where
  processed : Bool
  action : String
  reason : Option String
  workflow_id : Option Nat
  adminNotes : List AdminNote
  chatMessages : List String
  statusUpdates : List (Nat × WStatus)
  deriving DecidableEq, Repr

/-- The in-chat escalation notice (lines 161-165). -/
def escalationText : String :=
  "🆘 This conversation has become too complex. I've notified an admin for assistance. Please stand by for human help."

/-- The in-chat rejection notice (lines 257-260). -/
def rejectionText : String :=
  "⏳ Please wait - there's already a shift request in progress. Let's finish that one first!"

/-- The `for workflow in squad_workflows:` loop (lines 114-202): find
the first candidate the relatedness classifier marks related with
confidence ≥ 50; escalate it if its interaction counter has reached
`settings.workflow_interaction_limit` (admin notification, then chat
notice, then status forced to EXPIRED — a raise from the chat send or
the status write is caught by the surrounding `except` and returned as
an error after the effects already performed), otherwise resume it.
`none` means no candidate was related and control falls through. -/
def routeSquadLoop (env : RouterEnv) : List Workflow → Option RouteResult
  | [] => none
  | w :: rest =>
      if env.isRelated w.id && 50 ≤ env.relatedConfidence w.id then
        some
          (if env.interactionLimit ≤ w.interaction_count then
            if env.sendMessageRaises then
              { processed := false, action := "error", reason := none
                workflow_id := some w.id
                adminNotes := [{ kind := "workflow_escalation"
                                 ref := toString w.id }]
                chatMessages := [], statusUpdates := [] }
            else if env.updateStatusRaises then
              { processed := false, action := "error", reason := none
                workflow_id := some w.id
                adminNotes := [{ kind := "workflow_escalation"
                                 ref := toString w.id }]
                chatMessages := [escalationText], statusUpdates := [] }
            else
              { processed := true, action := "escalated_to_admin"
                reason := none, workflow_id := some w.id
                adminNotes := [{ kind := "workflow_escalation"
                                 ref := toString w.id }]
                chatMessages := [escalationText]
                statusUpdates := [(w.id, WStatus.EXPIRED)] }
          else if env.resumeRaises then
            { processed := false, action := "error", reason := none
              workflow_id := some w.id, adminNotes := []
              chatMessages := [], statusUpdates := [] }
          else
            { processed := true, action := "resumed_workflow", reason := none
              workflow_id := some w.id, adminNotes := []
              chatMessages := [], statusUpdates := [] })
      else routeSquadLoop env rest

/-- Steps 2 onward of `route_message` (lines 206-359): the legacy
single-active-workflow-per-group path, then intent detection for a
fresh request. -/
def routeLegacy (env : RouterEnv) : RouteResult :=
  match env.activeWorkflow with
  | some w =>
      if w.status = WStatus.WAITING_FOR_INPUT then
        if env.resumeRaises then
          { processed := false, action := "error", reason := none
            workflow_id := some w.id, adminNotes := []
            chatMessages := [], statusUpdates := [] }
        else
          { processed := true, action := "resumed_workflow", reason := none
            workflow_id := some w.id, adminNotes := []
            chatMessages := [], statusUpdates := [] }
      else if env.intentShift && 50 ≤ env.intentConfidence then
        { processed := false, action := "rejected"
          reason := some "workflow_in_progress", workflow_id := some w.id
          adminNotes := []
          chatMessages := if env.sendMessageRaises then [] else [rejectionText]
          statusUpdates := [] }
      else
        { processed := false, action := "ignored"
          reason := some "non_shift_message_with_active_workflow"
          workflow_id := none, adminNotes := []
          chatMessages := [], statusUpdates := [] }
  | none =>
      if env.intentShift && 50 ≤ env.intentConfidence then
        if env.startRaises then
          { processed := false, action := "error", reason := none
            workflow_id := none, adminNotes := []
            chatMessages := [], statusUpdates := [] }
        else
          { processed := true, action := "started_workflow", reason := none
            workflow_id := some env.newWorkflowId, adminNotes := []
            chatMessages := [], statusUpdates := [] }
      else
        { processed := false, action := "ignored"
          reason := some "not_shift_request", workflow_id := none
          adminNotes := [], chatMessages := [], statusUpdates := [] }

/-- `ConversationRouter.route_message` (lines 62-359): reject
unauthorized senders; when the sender has a squad, try the squad loop
over its active workflows; otherwise (or when no candidate is
related) fall through to the legacy path. -/
def ConversationRouter.route_message (env : RouterEnv) : RouteResult :=
  if !env.authorized then
    { processed := false, action := "ignored"
      reason := some "unauthorized_user", workflow_id := none
      adminNotes := [], chatMessages := [], statusUpdates := [] }
  else
    match env.senderSquad with
    | some _ =>
        match routeSquadLoop env env.squadWorkflows with
        | some r => r
        | none => routeLegacy env
    | none => routeLegacy env

/-! ## Workflow store reachability (src/src/conversation_state_manager.py) -/

/-- `get_active_workflow(group_id) is None`: no row of this group has
an active status. -/
def noActiveInGroup (s : List Workflow) (g : String) : Bool :=
  s.all (fun w => !(w.group_id = g && w.status.isActive))

/-- `ConversationStateManager.update_workflow` restricted to the
status column (state/metadata payloads are not modelled here). -/
def updateStatusStore (s : List Workflow) (id : Nat) (st : WStatus) :
    List Workflow :=
  s.map (fun w => if w.id = id then { w with status := st } else w)

/-- `ConversationStateManager.expire_old_workflows` (lines 440-479):
every active row with `expires_at < now` becomes EXPIRED. -/
def expire_old_workflows (s : List Workflow) (now : Int) : List Workflow :=
  s.map (fun w =>
    if w.status.isActive && decide (w.expires_at < now) then
      { w with status := WStatus.EXPIRED }
    else w)

/-- Store states reachable through the mutating entry points as the
router, the engine and the expiry sweep invoke them:
`start` is `create_workflow` as guarded by the router (a workflow is
only started when `get_active_workflow(group_id)` found nothing,
conversation_router.py lines 207-341, with a fresh id and status NEW);
`update` is `update_workflow` with a status, whose call sites
(`_update_workflow_from_state`, the escalation write, and
`resume_workflow`) all target a workflow fetched from an
active-status query within the same lock-held cycle;
`expire` is the expiry sweep. -/
inductive ReachableStore : List Workflow → Prop
  | init : ReachableStore []
  | start (s : List Workflow) (w : Workflow) :
      ReachableStore s →
      w.status = WStatus.NEW →
      noActiveInGroup s w.group_id = true →
      ReachableStore (s ++ [w])
  | update (s : List Workflow) (id : Nat) (st : WStatus) :
      ReachableStore s →
      (∀ w ∈ s, w.id = id → w.status.isActive = true) →
      ReachableStore (updateStatusStore s id st)
  | expire (s : List Workflow) (now : Int) :
      ReachableStore s →
      ReachableStore (expire_old_workflows s now)

/-- At most one active workflow per group — the strong form the
router's creation guard maintains. -/
def activeUniquePerGroup (s : List Workflow) : Prop :=
  s.Pairwise (fun w v => w.status.isActive = true →
    v.status.isActive = true → w.group_id ≠ v.group_id)

/-- The claim's invariant: no two distinct active workflows share the
same `(group_id, squad_id)` — in particular at most one active
workflow with no squad per group. -/
def activeScopeInvariant (s : List Workflow) : Prop :=
  s.Pairwise (fun w v => w.status.isActive = true →
    v.status.isActive = true → w.group_id = v.group_id →
    w.squad_id ≠ v.squad_id)

/-- Fixture: an extraction result whose date field is not in the
8-digit calendar shape. -/
def invalidDateState : ShiftWorkflowState :=
  { squad := some 42
    date := some "tomorrow"
    shift_start := some "1800"
    shift_end := some "0600"
    action := some "noCrew"
    parsed_requests := [[("squad", "42")]]
    validation_warnings := []
    validation_passed := true
    execution_status := none
    current_step := "extract_parameters"
    missing_parameters := []
    clarification_question := none
    interaction_count := 1 }

/-- Fixture: a fully-extracted request whose action field was never
set. -/
def validNoActionState : ShiftWorkflowState :=
  { squad := some 42
    date := some "20251025"
    shift_start := some "1800"
    shift_end := some "0600"
    action := none
    parsed_requests := [[("squad", "42")]]
    validation_warnings := []
    validation_passed := true
    execution_status := none
    current_step := "extract_parameters"
    missing_parameters := []
    clarification_question := none
    interaction_count := 0 }

/-- Fixture: a squad-scoped workflow waiting for input whose
interaction counter has reached the default limit of 2 (it is being
resumed for the 3rd time). -/
def escalatedWorkflow : Workflow :=
  { id := 7
    group_id := "g"
    squad_id := some 42
    status := WStatus.WAITING_FOR_INPUT
    interaction_count := 2
    expires_at := 100 }

/-- Fixture: the routing environment around `escalatedWorkflow` — an
authorized squad-42 sender, a relatedness classifier answering
related with confidence 90, the default interaction limit 2, and no
collaborator failures. -/
def escalationEnv : RouterEnv :=
  { authorized := true
    senderSquad := some 42
    squadWorkflows := [escalatedWorkflow]
    isRelated := fun _ => true
    relatedConfidence := fun _ => 90
    interactionLimit := 2
    sendMessageRaises := false
    updateStatusRaises := false
    resumeRaises := false
    activeWorkflow := some escalatedWorkflow
    intentShift := false
    intentConfidence := 0
    startRaises := false
    newWorkflowId := 0 }

/-- Fixture: a NEW squad-scoped workflow in group g1. -/
def storeW0 : Workflow :=
  { id := 0
    group_id := "g1"
    squad_id := some 42
    status := WStatus.NEW
    interaction_count := 0
    expires_at := 100 }

/-- Fixture: a NEW workflow with no squad in group g2. -/
def storeW1 : Workflow :=
  { id := 1
    group_id := "g2"
    squad_id := none
    status := WStatus.NEW
    interaction_count := 0
    expires_at := 100 }

end Station95

namespace Station95

/-- C3: `acquire()` returns true exactly when no fresh well-formed lock
record exists; in every true case it installs a fresh record; a stale
record yields exactly one escalation event before returning true; a
corrupt and an absent record are overwritten with no event and do not
fail; a fresh record yields false. -/
theorem acquire_true_iff_no_fresh_record (now timeoutMinutes : Int)
    (lock : Option LockFile) :
    let r := PollerLock.acquire now timeoutMinutes lock
    (r.acquired = !freshLock now timeoutMinutes lock)
    ∧ (r.acquired = true → r.lock = some (LockFile.valid now))
    ∧ (∀ s, lock = some (LockFile.valid s) → now - s > timeoutMinutes * 60 →
        r.acquired = true ∧ r.events = [LockEvent.pollerTimeout])
    ∧ (lock = some LockFile.corrupt →
        r.acquired = true ∧ r.lock = some (LockFile.valid now) ∧ r.events = [])
    ∧ (lock = none → r.acquired = true ∧ r.events = [])
    ∧ (freshLock now timeoutMinutes lock = true →
        r.acquired = false ∧ r.lock = lock ∧ r.events = []) := by
  match lock with
  | some (LockFile.valid s) =>
      simp only [PollerLock.acquire, freshLock]
      by_cases h : now - s > timeoutMinutes * 60
      · simp [h, not_le.mpr h]
      · simp only [if_neg h]
        rw [not_lt] at h
        simp [h, sub_le_iff_le_add.mp h]
  | some LockFile.corrupt =>
      simp [PollerLock.acquire, freshLock]
  | none =>
      simp [PollerLock.acquire, freshLock]

/-- Witness for C3: instance B attempting `acquire` 1 second after
instance A created the record, with a 30-minute staleness threshold,
returns false; while a record aged 1801 seconds under a 30-second
threshold example at threshold 30 minutes stale case also evaluates. -/
theorem acquire_true_iff_no_fresh_record_witness :
    ((PollerLock.acquire 1 30 (some (LockFile.valid 0))).acquired
        = !freshLock 1 30 (some (LockFile.valid 0)))
    ∧ (PollerLock.acquire 1 30 (some (LockFile.valid 0))).acquired = false
    ∧ (PollerLock.acquire 1801 30 none).acquired = true
    ∧ (PollerLock.acquire 3601 60 (some LockFile.corrupt)).acquired = true := by
  refine ⟨(acquire_true_iff_no_fresh_record 1 30 (some (LockFile.valid 0))).1, ?_, ?_, ?_⟩
  · decide
  · decide
  · decide

end Station95

namespace Station95

/-- C9: once the lock is acquired, `release()` runs on every exit path
of the poll cycle — normal completion, the early fetch-error return,
and an exception raised inside the body — and `release()` itself never
raises, even when deleting the lock record fails. -/
theorem poll_releases_lock_on_every_exit (now timeoutMinutes : Int)
    (lock : Option LockFile) (bodyExit : PollBodyExit) (unlinkFails : Bool) :
    let tr := GroupMePoller.poll now timeoutMinutes lock bodyExit unlinkFails
    (tr.lockAcquired = true → tr.releaseCalled = true)
    ∧ (∀ l u, (PollerLock.release l u).2 = false) := by
  constructor
  · intro h
    simp only [GroupMePoller.poll] at h ⊢
    by_cases ha : (PollerLock.acquire now timeoutMinutes lock).acquired
    · simp [ha]
    · simp [ha] at h
  · intro l u
    match l with
    | some x => cases u <;> simp [PollerLock.release]
    | none => simp [PollerLock.release]

/-- Witness for C9 at a concrete cycle: the lock is free, the body
raises, deleting the lock record fails — release is still called and
does not raise. -/
theorem poll_releases_lock_on_every_exit_witness :
    ((GroupMePoller.poll 0 30 none PollBodyExit.raised true).lockAcquired = true
      → (GroupMePoller.poll 0 30 none PollBodyExit.raised true).releaseCalled = true)
    ∧ (GroupMePoller.poll 0 30 none PollBodyExit.raised true).releaseCalled = true
    ∧ (PollerLock.release (some (LockFile.valid 0)) true).2 = false := by
  refine ⟨(poll_releases_lock_on_every_exit 0 30 none PollBodyExit.raised true).1, ?_, ?_⟩
  · exact (poll_releases_lock_on_every_exit 0 30 none PollBodyExit.raised true).1 (by decide)
  · exact (poll_releases_lock_on_every_exit 0 30 none PollBodyExit.raised true).2
      (some (LockFile.valid 0)) true

/-- C5: inserting a queue entry twice with the same message id stores
exactly one row; the second insert is a no-op that neither raises
(`insert_message` is total and absorbs the database error by
returning `None`) nor changes the table. -/
theorem insert_message_idempotent (rows : List QueueRow)
    (mid gid uid uname text : String) (ts : Int)
    (h : rows.countP (fun r => r.message_id = mid) = 0) :
    let first := MessageQueueManager.insert_message rows mid gid uid uname text ts
    let second := MessageQueueManager.insert_message first.1 mid gid uid uname text ts
    first.1.countP (fun r => r.message_id = mid) = 1
    ∧ second.1 = first.1
    ∧ second.2 = none
    ∧ first.2.isSome = true := by
  have hnone : ∀ r ∈ rows, ¬ (r.message_id = mid) := by
    intro r hr
    have := List.countP_eq_zero.mp h r hr
    simpa using this
  have hany : rows.any (fun r => r.message_id = mid) = false := by
    simp only [List.any_eq_false, decide_eq_true_eq]
    exact hnone
  simp only [MessageQueueManager.insert_message, dbInsertUniqueMessageId, hany,
    Bool.false_eq_true, if_false]
  simp [List.countP_append, h, List.countP_cons, List.any_append]

/-- C6 helper: message round-trip through the dictionary form. -/
theorem deserialize_serialize_message (m : LCMessage) :
    deserializeMessage (serializeMessage m) = m := by
  cases m <;> simp [serializeMessage, deserializeMessage]

/-- C6: deserializing the serialized form of a `state_data` payload
reproduces it exactly — action lists, warnings, interaction counters
and keys unknown to the serializer included — whenever the `messages`
entries hold message objects, which is the form every payload has at
the point the engine serializes it. -/
theorem serialize_deserialize_state_roundtrip
    (st : List (String × StateVal))
    (h : ∀ kv ∈ st, kv.1 = "messages" → objMessagesOnly kv.2 = true) :
    deserialize_state (serialize_state st) = st := by
  have entry : ∀ kv ∈ st,
      deserializeStateEntry (serializeStateEntry kv) = kv := by
    intro kv hkv
    by_cases hk : kv.1 = "messages"
    · match hv : kv.2 with
      | StateVal.msgs l =>
          by_cases hl : l.isEmpty
          · simp [serializeStateEntry, deserializeStateEntry, hk, hv, hl]
          · have hobj := h kv hkv hk
            rw [hv] at hobj
            simp only [objMessagesOnly, List.all_eq_true] at hobj
            have hmap : l.map (fun it =>
                MessageItem.obj (deserializeMessageItem
                  (MessageItem.dict (serializeMessageItem it)))) = l := by
              have hid : ∀ it ∈ l,
                  MessageItem.obj (deserializeMessageItem
                    (MessageItem.dict (serializeMessageItem it))) = it := by
                intro it hit
                match it with
                | MessageItem.obj m =>
                    simp [serializeMessageItem, deserializeMessageItem,
                      deserialize_serialize_message]
                | MessageItem.dict d =>
                    exact absurd (hobj (MessageItem.dict d) hit) (by simp)
              calc l.map (fun it =>
                    MessageItem.obj (deserializeMessageItem
                      (MessageItem.dict (serializeMessageItem it))))
                  = l.map id := List.map_congr_left hid
                _ = l := List.map_id l
            have hne : (l.map (fun it =>
                MessageItem.dict (serializeMessageItem it))).isEmpty = false := by
              cases l with
              | nil => simp at hl
              | cons a t => simp
            have hfst : kv = (kv.1, StateVal.msgs l) := by
              cases kv
              simp_all
            rw [hfst]
            simp only [serializeStateEntry, deserializeStateEntry, hk, if_true,
              hl, Bool.false_eq_true, if_false, hne, List.map_map]
            rw [show ((fun it => MessageItem.obj (deserializeMessageItem it)) ∘
                fun it => MessageItem.dict (serializeMessageItem it))
              = fun it => MessageItem.obj (deserializeMessageItem
                  (MessageItem.dict (serializeMessageItem it))) from rfl]
            rw [hmap]
      | StateVal.str s =>
          simp [serializeStateEntry, deserializeStateEntry, hk, hv]
      | StateVal.num n =>
          simp [serializeStateEntry, deserializeStateEntry, hk, hv]
      | StateVal.strList l =>
          simp [serializeStateEntry, deserializeStateEntry, hk, hv]
      | StateVal.dictList l =>
          simp [serializeStateEntry, deserializeStateEntry, hk, hv]
      | StateVal.null =>
          simp [serializeStateEntry, deserializeStateEntry, hk, hv]
    · simp [serializeStateEntry, deserializeStateEntry, hk]
  simp only [serialize_state, deserialize_state, List.map_map]
  calc st.map (deserializeStateEntry ∘ serializeStateEntry)
      = st.map id := List.map_congr_left (fun kv hkv => entry kv hkv)
    _ = st := List.map_id st

/-- Witness for C5: a fresh table, two inserts of message id `m1`. -/
theorem insert_message_idempotent_witness :
    (([] : List QueueRow).countP (fun r => r.message_id = "m1") = 0)
    ∧ (let first := MessageQueueManager.insert_message [] "m1" "g" "u" "Ann" "hi" 5
       let second := MessageQueueManager.insert_message first.1 "m1" "g" "u" "Ann" "hi" 5
       first.1.countP (fun r => r.message_id = "m1") = 1
       ∧ second.1 = first.1
       ∧ second.2 = none
       ∧ first.2.isSome = true) :=
  ⟨by decide, insert_message_idempotent [] "m1" "g" "u" "Ann" "hi" 5 (by decide)⟩

/-- Witness for C6: a concrete mid-workflow payload with an action
list, warnings, an interaction counter, a key unknown to the schema,
and all four message kinds. -/
theorem serialize_deserialize_state_roundtrip_witness :
    let st : List (String × StateVal) :=
      [("interaction_count", StateVal.num 2),
       ("validation_warnings", StateVal.strList ["Missing required parameter: date"]),
       ("parsed_requests", StateVal.dictList [[("squad", "42"), ("action", "noCrew")]]),
       ("some_future_key", StateVal.str "preserved"),
       ("messages", StateVal.msgs
         [MessageItem.obj (LCMessage.system "prompt" []),
          MessageItem.obj (LCMessage.human "Squad 42 needs coverage" []),
          MessageItem.obj (LCMessage.ai "ok" [("k", "v")] ["tc1"]),
          MessageItem.obj (LCMessage.tool "result" [] "tc1")])]
    (∀ kv ∈ st, kv.1 = "messages" → objMessagesOnly kv.2 = true)
    ∧ deserialize_state (serialize_state st) = st := by
  refine ⟨by decide, serialize_deserialize_state_roundtrip _ (by decide)⟩

/-- Key preservation: every per-row update in
`MessageQueueManager.update_status` leaves `message_id` unchanged. -/
theorem update_status_keeps_ids (message_id : String) (status : QStatus)
    (error_message : Option String) (cr : Nat) (x : QueueRow) :
    ((fun r =>
      if r.message_id = message_id then
        if status = QStatus.FAILED then
          { r with
              status := status
              error_message := error_message
              retry_count := cr + 1 }
        else
          { r with status := status }
      else r) x).message_id = x.message_id := by
  by_cases h1 : x.message_id = message_id <;> by_cases h2 : status = QStatus.FAILED <;>
    simp [h1, h2]

/-- In a table with unique message ids, `find?` on a member's id
returns exactly that member. -/
theorem find?_eq_of_mem_of_unique (rows : List QueueRow) (r : QueueRow)
    (hu : rows.Pairwise (fun a b => a.message_id ≠ b.message_id))
    (hr : r ∈ rows) :
    rows.find? (fun x => x.message_id = r.message_id) = some r := by
  induction rows with
  | nil => cases hr
  | cons a t ih =>
      rcases List.mem_cons.mp hr with h | h
      · subst h
        exact List.find?_cons_of_pos t (by simp)
      · have hne : a.message_id ≠ r.message_id :=
          (List.pairwise_cons.mp hu).1 r h
        rw [List.find?_cons_of_neg t (by simp [hne])]
        exact ih (List.pairwise_cons.mp hu).2 h

/-- `find?` on a message id commutes with a per-row map that keeps
message ids. -/
theorem find?_map_of_key_preserving (rows : List QueueRow) (id : String)
    (f : QueueRow → QueueRow) (hf : ∀ x, (f x).message_id = x.message_id) :
    (rows.map f).find? (fun x => x.message_id = id)
      = (rows.find? (fun x => x.message_id = id)).map f := by
  induction rows with
  | nil => simp
  | cons a t ih =>
      by_cases h : a.message_id = id
      · rw [List.map_cons, List.find?_cons_of_pos _ (by simp [hf a, h]),
          List.find?_cons_of_pos _ (by simp [h])]
        rfl
      · rw [List.map_cons, List.find?_cons_of_neg _ (by simp [hf a, h]),
          List.find?_cons_of_neg _ (by simp [h]), ih]

/-- `update_status` keeps message ids pairwise distinct. -/
theorem update_status_unique (rows : List QueueRow) (id : String)
    (status : QStatus) (e : Option String)
    (hu : rows.Pairwise (fun a b => a.message_id ≠ b.message_id)) :
    (MessageQueueManager.update_status rows id status e).Pairwise
      (fun a b => a.message_id ≠ b.message_id) := by
  unfold MessageQueueManager.update_status
  exact hu.map _ (fun a b hab => by
    rw [update_status_keeps_ids, update_status_keeps_ids]
    exact hab)

/-- The row `update_status` leaves behind for a member of a
unique-keyed table. -/
theorem update_status_find? (rows : List QueueRow) (r : QueueRow)
    (hu : rows.Pairwise (fun a b => a.message_id ≠ b.message_id))
    (hr : r ∈ rows) (status : QStatus) (e : Option String) :
    (MessageQueueManager.update_status rows r.message_id status e).find?
        (fun x => x.message_id = r.message_id)
      = some (if status = QStatus.FAILED then
          { r with
              status := status
              error_message := e
              retry_count := r.retry_count + 1 }
        else { r with status := status }) := by
  unfold MessageQueueManager.update_status
  rw [find?_map_of_key_preserving _ _ _
      (update_status_keeps_ids r.message_id status e _),
    find?_eq_of_mem_of_unique rows r hu hr]
  simp [find?_eq_of_mem_of_unique rows r hu hr]


/-- C2 counterexample: with the configured ceiling
`max_retry_attempts = 3`, the failing cycle that raises `retry_count`
to 3 fires an escalation — and the entry is still in the next cycle's
pending set, where a further failing attempt fires a second
escalation.  The code neither stops attempting the entry nor limits
the escalation to exactly one. -/
theorem retry_ceiling_counterexample :
    ((pollProcessOne 3 false "boom" [twiceFailedRow] "m1").2.length = 1)
    ∧ (MessageQueueManager.get_retry_count
        (pollProcessOne 3 false "boom" [twiceFailedRow] "m1").1 "m1" = 3)
    ∧ ((MessageQueueManager.get_pending_messages
        (pollProcessOne 3 false "boom" [twiceFailedRow] "m1").1).length = 1)
    ∧ ((pollProcessOne 3 false "boom"
        (pollProcessOne 3 false "boom" [twiceFailedRow] "m1").1 "m1").2.length
        = 1) := by
  refine ⟨by decide, by decide, ?_, by decide⟩
  rw [show (pollProcessOne 3 false "boom" [twiceFailedRow] "m1").1
      = [{ twiceFailedRow with retry_count := 3 }] from by decide]
  simp [MessageQueueManager.get_pending_messages, twiceFailedRow]

/-- C2 as amended: a FAILED transition strictly increments
`retry_count`, but a FAILED entry stays in the pending set of every
subsequent cycle regardless of its retry count (only the time-based
expiry sweep removes it), and an escalation notification is emitted on
each failing attempt whose incremented retry count is at or above
`max_retry_attempts` — one per such retry, not exactly one overall. -/
theorem failed_entries_retried_and_escalated_each_cycle
    (rows : List QueueRow) (r : QueueRow)
    (hu : rows.Pairwise (fun a b => a.message_id ≠ b.message_id))
    (hr : r ∈ rows) (hst : r.status = QStatus.FAILED) :
    r ∈ MessageQueueManager.get_pending_messages rows
    ∧ (∀ e, MessageQueueManager.get_retry_count
        (MessageQueueManager.update_status rows r.message_id QStatus.FAILED e)
        r.message_id = r.retry_count + 1)
    ∧ (∀ maxR errText, maxR ≤ r.retry_count + 1 →
        (pollProcessOne maxR false errText rows r.message_id).2.length = 1)
    ∧ (∀ maxR errText,
        MessageQueueManager.get_retry_count
          (pollProcessOne maxR false errText rows r.message_id).1 r.message_id
          = r.retry_count + 1) := by
  have hpend : r ∈ MessageQueueManager.get_pending_messages rows := by
    unfold MessageQueueManager.get_pending_messages
    rw [List.mem_mergeSort]
    exact List.mem_filter.mpr ⟨hr, by simp [hst]⟩
  have hretry : ∀ e, MessageQueueManager.get_retry_count
      (MessageQueueManager.update_status rows r.message_id QStatus.FAILED e)
      r.message_id = r.retry_count + 1 := by
    intro e
    unfold MessageQueueManager.get_retry_count
    rw [update_status_find? rows r hu hr QStatus.FAILED e]
    simp
  -- the PROCESSING write that precedes every attempt
  have hu1 := update_status_unique rows r.message_id QStatus.PROCESSING none hu
  have hf1 := update_status_find? rows r hu hr QStatus.PROCESSING none
  rw [if_neg (by decide)] at hf1
  have hr1 : ({ r with status := QStatus.PROCESSING } : QueueRow)
      ∈ MessageQueueManager.update_status rows r.message_id QStatus.PROCESSING none :=
    List.mem_of_find?_eq_some hf1
  have hretry2 : ∀ errText, MessageQueueManager.get_retry_count
      (MessageQueueManager.update_status
        (MessageQueueManager.update_status rows r.message_id QStatus.PROCESSING none)
        r.message_id QStatus.FAILED (some errText))
      r.message_id = r.retry_count + 1 := by
    intro errText
    unfold MessageQueueManager.get_retry_count
    rw [update_status_find? _ ({ r with status := QStatus.PROCESSING }) hu1 hr1
      QStatus.FAILED (some errText)]
    simp
  refine ⟨hpend, hretry, ?_, ?_⟩
  · intro maxR errText hceil
    unfold pollProcessOne
    simp only [Bool.false_eq_true, if_false]
    rw [hretry2 errText, if_pos hceil]
    rfl
  · intro maxR errText
    unfold pollProcessOne
    simp only [Bool.false_eq_true, if_false]
    by_cases hc : maxR ≤ MessageQueueManager.get_retry_count
        (MessageQueueManager.update_status
          (MessageQueueManager.update_status rows r.message_id
            QStatus.PROCESSING none)
          r.message_id QStatus.FAILED (some errText)) r.message_id
    · rw [if_pos hc]
      exact hretry2 errText
    · rw [if_neg hc]
      exact hretry2 errText

/-- Witness for the amended C2 at the concrete fixture. -/
theorem failed_entries_retried_and_escalated_each_cycle_witness :
    twiceFailedRow ∈ MessageQueueManager.get_pending_messages [twiceFailedRow]
    ∧ (pollProcessOne 3 false "x" [twiceFailedRow] "m1").2.length = 1 := by
  have h := failed_entries_retried_and_escalated_each_cycle [twiceFailedRow]
    twiceFailedRow (by simp) (by simp) (by decide)
  exact ⟨h.1, h.2.2.1 3 "x" (by decide)⟩


/-- The warning/passed accumulation of `validate_parameters_node`: the
warnings are exactly the failed checks' messages, in source order, and
the flag is the conjunction of the checks. -/
theorem vstep_foldl (checks : List (Bool × String)) (w0 : List String)
    (p0 : Bool) :
    checks.foldl (fun acc cw => vstep acc cw.1 cw.2) (w0, p0)
      = (w0 ++ (checks.filter (fun cw => !cw.1)).map (fun cw => cw.2),
         p0 && checks.all (fun cw => cw.1)) := by
  induction checks generalizing w0 p0 with
  | nil => simp
  | cons c t ih =>
      cases hc : c.1
      · have hv : vstep (w0, p0) c.1 c.2 = (w0 ++ [c.2], false) := by
          simp [vstep, hc]
        rw [List.foldl_cons, hv, ih]
        simp [List.filter_cons, hc, List.all_cons]
      · have hv : vstep (w0, p0) c.1 c.2 = (w0, p0) := by
          simp [vstep, hc]
        rw [List.foldl_cons, hv, ih]
        simp [List.filter_cons, hc, List.all_cons]

/-- The node's eight checks pass together exactly when the spec's
validation rules hold. -/
theorem validationChecks_all_eq_spec (st : ShiftWorkflowState) :
    (validationChecks st).all (fun cw => cw.1) = specValidationOk st := by
  simp only [validationChecks, specValidationOk, List.all_cons, List.all_nil,
    Bool.and_true]
  cases hsq : truthyNat st.squad <;> cases hd : truthyStr st.date <;>
    cases hs : truthyStr st.shift_start <;> cases he : truthyStr st.shift_end <;>
      simp [Bool.and_comm, Bool.and_assoc, Bool.and_left_comm]

/-- C7: before the EXECUTING transition, `validate_parameters_node`
checks required presence, the closed squad set, the 8-digit date shape
and the 4-digit time shapes; it passes exactly when the spec's rules
hold, appends one human-readable warning per failing check, preserves
every already-extracted field, and on any failure routing ends the
step and `_update_workflow_from_state` leaves the status unchanged
(so no EXECUTING transition happens). -/
theorem validation_failure_blocks_executing (st : ShiftWorkflowState) :
    let r := validate_parameters_node st
    (r.validation_passed = specValidationOk st)
    ∧ (r.validation_warnings
        = ((validationChecks st).filter (fun cw => !cw.1)).map (fun cw => cw.2))
    ∧ r.squad = st.squad ∧ r.date = st.date ∧ r.shift_start = st.shift_start
    ∧ r.shift_end = st.shift_end ∧ r.parsed_requests = st.parsed_requests
    ∧ r.missing_parameters = st.missing_parameters
    ∧ (specValidationOk st = false →
        r.validation_warnings ≠ []
        ∧ route_after_validation r = "end"
        ∧ ∀ old, WorkflowManager.update_workflow_from_state old r = old) := by
  intro r
  have hr : r = { st with
      validation_warnings :=
        ((validationChecks st).filter (fun cw => !cw.1)).map (fun cw => cw.2)
      validation_passed := (validationChecks st).all (fun cw => cw.1)
      action := if truthyStr st.action then st.action else some "noCrew"
      current_step := "validate" } := by
    show validate_parameters_node st = _
    unfold validate_parameters_node
    rw [vstep_foldl]
    simp
  refine ⟨?_, ?_, ?_, ?_, ?_, ?_, ?_, ?_, ?_⟩
  · rw [hr]; exact validationChecks_all_eq_spec st
  · rw [hr]
  · rw [hr]
  · rw [hr]
  · rw [hr]
  · rw [hr]
  · rw [hr]
  · rw [hr]
  · intro hfail
    have hpassed : r.validation_passed = false := by
      rw [hr]
      rw [validationChecks_all_eq_spec st]
      exact hfail
    refine ⟨?_, ?_, ?_⟩
    · rw [hr]
      intro hnil
      have hfilter : (validationChecks st).filter (fun cw => !cw.1) = [] :=
        List.map_eq_nil_iff.mp hnil
      have hall : (validationChecks st).all (fun cw => cw.1) = true := by
        rw [List.all_eq_true]
        intro c hc
        have := List.filter_eq_nil_iff.mp hfilter c hc
        simpa using this
      rw [validationChecks_all_eq_spec st] at hall
      rw [hall] at hfail
      cases hfail
    · unfold route_after_validation
      rw [hpassed]
      rfl
    · intro old
      have h1 : r.current_step = "validate" := by rw [hr]
      unfold WorkflowManager.update_workflow_from_state
      rw [h1, hpassed]
      simp

/-- Witness for C7: the fixture with `date = "tomorrow"` fails the
8-digit shape, the warning list is non-empty, routing ends the step,
and the status stays WAITING_FOR_INPUT. -/
theorem validation_failure_blocks_executing_witness :
    specValidationOk invalidDateState = false
    ∧ (validate_parameters_node invalidDateState).validation_warnings ≠ []
    ∧ route_after_validation (validate_parameters_node invalidDateState) = "end"
    ∧ WorkflowManager.update_workflow_from_state WStatus.WAITING_FOR_INPUT
        (validate_parameters_node invalidDateState) = WStatus.WAITING_FOR_INPUT := by
  have h := validation_failure_blocks_executing invalidDateState
  have hc := h.2.2.2.2.2.2.2.2 (by decide)
  exact ⟨by decide, hc.1, hc.2.1, hc.2.2 WStatus.WAITING_FOR_INPUT⟩

/-- C10: when validation runs with the action field unset, it does not
fail on the missing action — the action defaults to `"noCrew"` — and
an input whose other parameters pass all checks routes on to
execution with that default action. -/
theorem unset_action_defaults_to_noCrew (st : ShiftWorkflowState)
    (h : st.action = none) :
    let r := validate_parameters_node st
    r.action = some "noCrew"
    ∧ r.validation_passed = specValidationOk st
    ∧ (specValidationOk st = true → route_after_validation r = "execute") := by
  intro r
  have hr : r = { st with
      validation_warnings :=
        ((validationChecks st).filter (fun cw => !cw.1)).map (fun cw => cw.2)
      validation_passed := (validationChecks st).all (fun cw => cw.1)
      action := if truthyStr st.action then st.action else some "noCrew"
      current_step := "validate" } := by
    show validate_parameters_node st = _
    unfold validate_parameters_node
    rw [vstep_foldl]
    simp
  refine ⟨?_, ?_, ?_⟩
  · rw [hr, h]
    rfl
  · rw [hr]
    exact validationChecks_all_eq_spec st
  · intro hok
    unfold route_after_validation
    rw [hr, validationChecks_all_eq_spec st, hok]
    rfl

/-- Witness for C10: the fixture with every parameter valid and no
action extracted proceeds to execution with action `"noCrew"`. -/
theorem unset_action_defaults_to_noCrew_witness :
    validNoActionState.action = none
    ∧ (validate_parameters_node validNoActionState).action = some "noCrew"
    ∧ route_after_validation (validate_parameters_node validNoActionState)
        = "execute" := by
  have h := unset_action_defaults_to_noCrew validNoActionState rfl
  exact ⟨rfl, h.1, h.2.2 (by decide)⟩


/-- The command loop records every command, in order. -/
theorem runCommands_map_command (sendOk : Nat → Bool) (i : Nat)
    (cs : List CalendarCommand) :
    (runCommands sendOk i cs).map (fun cr => cr.command) = cs := by
  induction cs generalizing i with
  | nil => rfl
  | cons c t ih => simp [runCommands, ih]

/-- The command loop records the calendar client's per-attempt
verdicts, in order. -/
theorem runCommands_map_success (sendOk : Nat → Bool) (i : Nat)
    (cs : List CalendarCommand) :
    (runCommands sendOk i cs).map (fun cr => cr.success)
      = (List.range' i cs.length).map sendOk := by
  induction cs generalizing i with
  | nil => rfl
  | cons c t ih => simp [runCommands, ih, List.range']

/-- C8: for a step that prepared more than zero actions, execution
iterates every action, the stored results list the per-action
verdicts in order, and the summary recorded at completion determines
which of the three aggregate cases (all-succeeded / partial /
all-failed) the per-action verdicts fall into, for every combination
of verdicts; the workflow is marked COMPLETED and at least one
aggregate message reaches the chat. -/
theorem execution_reports_three_way_aggregate (sendOk : Nat → Bool)
    (cmds : List CalendarCommand) (h : cmds ≠ []) :
    let o := WorkflowManager.handle_workflow_outputs_exec sendOk cmds
    let os := o.execution_result.results.map (fun cr => cr.success)
    (o.execution_result.results.map (fun cr => cr.command) = cmds)
    ∧ (os = (List.range' 1 cmds.length).map sendOk)
    ∧ (o.execution_result.summary
        = { total := cmds.length
            successful := os.countP (fun b => b)
            failed := os.countP (fun b => !b) })
    ∧ (reportedAggregate o.execution_result.summary = specAggregate os)
    ∧ (o.final_status = WStatus.COMPLETED)
    ∧ (o.chat_messages ≠ []) := by
  intro o os
  have hres : o.execution_result.results = runCommands sendOk 1 cmds := rfl
  have hcmds : o.execution_result.results.map (fun cr => cr.command) = cmds := by
    rw [hres]
    exact runCommands_map_command sendOk 1 cmds
  have hos : os = (List.range' 1 cmds.length).map sendOk := by
    show (o.execution_result.results.map (fun cr => cr.success)) = _
    rw [hres]
    exact runCommands_map_success sendOk 1 cmds
  have hlen : os.length = cmds.length := by
    rw [hos]
    simp
  have hosne : os ≠ [] := by
    intro hnil
    apply h
    have := congrArg List.length hnil
    rw [hlen] at this
    exact List.length_eq_zero.mp this
  have hsucc : ((runCommands sendOk 1 cmds).filter
      (fun cr => cr.success)).length = os.countP (fun b => b) := by
    show _ = List.countP (fun b => b)
      (o.execution_result.results.map (fun cr => cr.success))
    rw [List.countP_map, hres]
    exact (List.countP_eq_length_filter _ _).symm
  have hfail : ((runCommands sendOk 1 cmds).filter
      (fun cr => !cr.success)).length = os.countP (fun b => !b) := by
    show _ = List.countP (fun b => !b)
      (o.execution_result.results.map (fun cr => cr.success))
    rw [List.countP_map, hres]
    exact (List.countP_eq_length_filter _ _).symm
  have hsummary : o.execution_result.summary
      = { total := cmds.length
          successful := os.countP (fun b => b)
          failed := os.countP (fun b => !b) } := by
    show ({ total := cmds.length
            successful := ((runCommands sendOk 1 cmds).filter
              (fun cr => cr.success)).length
            failed := ((runCommands sendOk 1 cmds).filter
              (fun cr => !cr.success)).length } : ExecSummary) = _
    rw [hsucc, hfail]
  refine ⟨hcmds, hos, hsummary, ?_, rfl, ?_⟩
  · rw [hsummary]
    unfold reportedAggregate specAggregate
    by_cases hall : os.all (fun b => b) = true
    · have h0 : os.countP (fun b => !b) = 0 := by
        rw [List.countP_eq_zero]
        intro a ha
        have := List.all_eq_true.mp hall a ha
        simp [this]
      simp [h0, hall]
    · have h0 : os.countP (fun b => !b) ≠ 0 := by
        intro hz
        apply hall
        rw [List.all_eq_true]
        intro a ha
        have := List.countP_eq_zero.mp hz a ha
        simpa using this
      by_cases hallf : os.all (fun b => !b) = true
      · have hs0 : os.countP (fun b => b) = 0 := by
          rw [List.countP_eq_zero]
          intro a ha
          have := List.all_eq_true.mp hallf a ha
          simpa using this
        simp [h0, hs0, hall, hallf]
      · have hs0 : os.countP (fun b => b) ≠ 0 := by
          intro hz
          apply hallf
          rw [List.all_eq_true]
          intro a ha
          have := List.countP_eq_zero.mp hz a ha
          simpa using this
        simp [h0, hs0, hall, hallf]
  · show (if 0 < ((runCommands sendOk 1 cmds).filter
        (fun cr => cr.success)).length then _ else []) ++
      (if 0 < ((runCommands sendOk 1 cmds).filter
        (fun cr => !cr.success)).length then _ else []) ≠ []
    rw [hsucc, hfail]
    by_cases hp : 0 < os.countP (fun b => b)
    · simp [hp]
    · have hnp : os.countP (fun b => b) = 0 := Nat.eq_zero_of_not_pos hp
      have hfpos : 0 < os.countP (fun b => !b) := by
        rcases List.exists_mem_of_ne_nil os hosne with ⟨a, ha⟩
        have haf : a = false := by
          have := List.countP_eq_zero.mp hnp a ha
          simpa using this
        have : (fun b => !b) a = true := by simp [haf]
        exact List.countP_pos_iff.mpr ⟨a, ha, this⟩
      simp [hp, hfpos]

/-- Witness for C8: two prepared actions, the first succeeding and the
second failing; the summary reconstructs the partial case. -/
theorem execution_reports_three_way_aggregate_witness :
    (let c1 : CalendarCommand :=
      { action := "noCrew", squad := 42, date := "20251025"
        shift_start := "1800", shift_end := "0600" }
     let c2 : CalendarCommand :=
      { action := "addShift", squad := 35, date := "20251025"
        shift_start := "0600", shift_end := "1800" }
     let o := WorkflowManager.handle_workflow_outputs_exec
       (fun i => i = 1) [c1, c2]
     reportedAggregate o.execution_result.summary
       = specAggregate (o.execution_result.results.map (fun cr => cr.success))
     ∧ reportedAggregate o.execution_result.summary
       = AggregateOutcome.mixed) := by
  refine ⟨(execution_reports_three_way_aggregate (fun i => i = 1) _
    (by decide)).2.2.2.1, by decide⟩


/-- C1: when the first squad candidate the classifier marks related
(confidence ≥ 50) is a WAITING_FOR_INPUT workflow whose interaction
counter has reached `settings.workflow_interaction_limit`, routing
returns the escalated outcome, forces exactly that workflow to
EXPIRED, and performs exactly one admin notification and exactly one
in-chat escalation notice. -/
theorem related_workflow_at_limit_escalates (env : RouterEnv)
    (w : Workflow) (pre post : List Workflow)
    (hauth : env.authorized = true)
    (hsq : env.senderSquad.isSome = true)
    (hsplit : env.squadWorkflows = pre ++ w :: post)
    (hpre : ∀ v ∈ pre,
      ¬(env.isRelated v.id = true ∧ 50 ≤ env.relatedConfidence v.id))
    (hrel : env.isRelated w.id = true)
    (hconf : 50 ≤ env.relatedConfidence w.id)
    (hwait : w.status = WStatus.WAITING_FOR_INPUT)
    (hlimit : env.interactionLimit ≤ w.interaction_count)
    (hsend : env.sendMessageRaises = false)
    (hupd : env.updateStatusRaises = false) :
    ConversationRouter.route_message env =
      { processed := true
        action := "escalated_to_admin"
        reason := none
        workflow_id := some w.id
        adminNotes := [{ kind := "workflow_escalation", ref := toString w.id }]
        chatMessages := [escalationText]
        statusUpdates := [(w.id, WStatus.EXPIRED)] } := by
  have hloop : routeSquadLoop env (pre ++ w :: post) =
      some { processed := true
             action := "escalated_to_admin"
             reason := none
             workflow_id := some w.id
             adminNotes := [{ kind := "workflow_escalation"
                              ref := toString w.id }]
             chatMessages := [escalationText]
             statusUpdates := [(w.id, WStatus.EXPIRED)] } := by
    clear hsplit
    induction pre with
    | nil =>
        rw [List.nil_append]
        unfold routeSquadLoop
        rw [if_pos (by simp [hrel, hconf]), if_pos hlimit, hsend, hupd]
        simp
    | cons v t ih =>
        rw [List.cons_append]
        unfold routeSquadLoop
        have hv := hpre v (List.mem_cons_self v t)
        have hcond : (env.isRelated v.id
            && decide (50 ≤ env.relatedConfidence v.id)) = false := by
          by_cases hb : env.isRelated v.id = true
          · have : ¬(50 ≤ env.relatedConfidence v.id) := fun hc => hv ⟨hb, hc⟩
            simp [hb, this]
          · simp [Bool.eq_false_iff.mpr hb]
        rw [hcond]
        simp only [Bool.false_eq_true, if_false]
        exact ih (fun u hu => hpre u (List.mem_cons_of_mem v hu))
  obtain ⟨sq, hsq2⟩ := Option.isSome_iff_exists.mp hsq
  unfold ConversationRouter.route_message
  rw [hauth, hsq2]
  simp only [Bool.not_true, Bool.false_eq_true, if_false]
  rw [← hsplit] at hloop
  rw [hloop]

/-- Witness for C1: the fixture environment — one WAITING_FOR_INPUT
squad workflow at interaction count 2 with limit 2, related at
confidence 90. -/
theorem related_workflow_at_limit_escalates_witness :
    ConversationRouter.route_message escalationEnv =
      { processed := true
        action := "escalated_to_admin"
        reason := none
        workflow_id := some 7
        adminNotes := [{ kind := "workflow_escalation", ref := "7" }]
        chatMessages := [escalationText]
        statusUpdates := [(7, WStatus.EXPIRED)] } :=
  related_workflow_at_limit_escalates escalationEnv escalatedWorkflow [] []
    rfl rfl rfl (by simp) rfl (by decide) rfl (by decide) rfl rfl

/-- The strong store invariant the router's creation guard maintains:
at most one active workflow per group, full stop. -/
theorem store_active_unique_per_group (s : List Workflow)
    (h : ReachableStore s) : activeUniquePerGroup s := by
  induction h with
  | init => exact List.Pairwise.nil
  | start s w hs hNEW hguard ih =>
      unfold activeUniquePerGroup at ih ⊢
      rw [List.pairwise_append]
      refine ⟨ih, List.pairwise_singleton _ _, ?_⟩
      intro a ha b hb
      rw [List.mem_singleton] at hb
      subst hb
      intro haact _ hgr
      have hga := List.all_eq_true.mp hguard a ha
      rw [hgr] at hga
      simp [haact] at hga
  | update s id st hs hguard ih =>
      unfold activeUniquePerGroup at ih ⊢
      unfold updateStatusStore
      rw [List.pairwise_map]
      refine List.Pairwise.imp_of_mem ?_ ih
      intro a b ha hb hab hfa hfb
      have hga : (if a.id = id then { a with status := st } else a).group_id
          = a.group_id := by
        by_cases hid : a.id = id <;> simp [hid]
      have hgb : (if b.id = id then { b with status := st } else b).group_id
          = b.group_id := by
        by_cases hid : b.id = id <;> simp [hid]
      rw [hga, hgb]
      have haact : a.status.isActive = true := by
        by_cases hid : a.id = id
        · exact hguard a ha hid
        · rw [if_neg hid] at hfa
          exact hfa
      have hbact : b.status.isActive = true := by
        by_cases hid : b.id = id
        · exact hguard b hb hid
        · rw [if_neg hid] at hfb
          exact hfb
      exact hab haact hbact
  | expire s now hs ih =>
      unfold activeUniquePerGroup at ih ⊢
      unfold expire_old_workflows
      rw [List.pairwise_map]
      refine ih.imp ?_
      intro a b hab hfa hfb
      have hga : (if a.status.isActive && decide (a.expires_at < now) then
          { a with status := WStatus.EXPIRED } else a).group_id
          = a.group_id := by
        by_cases hc : (a.status.isActive && decide (a.expires_at < now)) = true <;>
          simp [hc]
      have hgb : (if b.status.isActive && decide (b.expires_at < now) then
          { b with status := WStatus.EXPIRED } else b).group_id
          = b.group_id := by
        by_cases hc : (b.status.isActive && decide (b.expires_at < now)) = true <;>
          simp [hc]
      rw [hga, hgb]
      have haact : a.status.isActive = true := by
        by_cases hc : (a.status.isActive && decide (a.expires_at < now)) = true
        · rw [if_pos hc] at hfa
          cases hfa
        · rw [if_neg hc] at hfa
          exact hfa
      have hbact : b.status.isActive = true := by
        by_cases hc : (b.status.isActive && decide (b.expires_at < now)) = true
        · rw [if_pos hc] at hfb
          cases hfb
        · rw [if_neg hc] at hfb
          exact hfb
      exact hab haact hbact

/-- C4: in every store state reachable through the router's guarded
creation, the engine's status writes, and the expiry sweep, no two
distinct active workflows share the same `(group_id, squad_id)` — in
particular, at most one active no-squad workflow exists per group. -/
theorem reachable_store_active_scope_invariant (s : List Workflow)
    (h : ReachableStore s) : activeScopeInvariant s := by
  have hu := store_active_unique_per_group s h
  unfold activeScopeInvariant
  unfold activeUniquePerGroup at hu
  exact hu.imp (fun hab ha hb hg => absurd hg (hab ha hb))

/-- Witness for C4: a concrete two-step reachable store — two NEW
workflows started in different groups. -/
theorem reachable_store_active_scope_invariant_witness :
    activeScopeInvariant [storeW0, storeW1] := by
  have h1 : ReachableStore [storeW0] :=
    ReachableStore.start [] storeW0 ReachableStore.init rfl (by decide)
  have h2 : ReachableStore [storeW0, storeW1] :=
    ReachableStore.start [storeW0] storeW1 h1 rfl (by decide)
  exact reachable_store_active_scope_invariant [storeW0, storeW1] h2


end Station95
